import Mathlib

/-!
Verification development for the brightwheel_to_nara activity-synchronization
pipeline.  The Python source (transfer.py, utils/transformers.py,
utils/errors.py) is shallowly embedded: dictionaries of optional fields become
structures of `Option`-typed fields, raising code returns `Except PyErr`, and
the asynchronous batch loop becomes a pure fold whose oracle arguments stand
for the remote service's responses.
-/

set_option autoImplicit false

namespace BwToNara

/-- Python exception kinds that the embedded code paths can raise. -/
inductive PyErr
  | keyError
  | indexError
  | valueError
  | apiError (msg : String)
deriving DecidableEq, Repr

/-- A naive `datetime.datetime` value: calendar date plus time of day. -/
structure PyDateTime where
  year : Nat
  month : Nat
  day : Nat
  hour : Nat
  minute : Nat
  second : Nat
deriving DecidableEq, Repr

/-- `datetime.date()`: the calendar date with the time of day dropped. -/
def PyDateTime.dateTuple (t : PyDateTime) : Nat × Nat × Nat :=
  (t.year, t.month, t.day)

/-- Days from 1970-01-01 to the given civil date (Gregorian calendar),
matching Python's `datetime` day arithmetic. -/
def daysFromCivil (y m d : Nat) : Int :=
  let yi : Int := if m ≤ 2 then (y : Int) - 1 else (y : Int)
  let era : Int := Int.fdiv yi 400
  let yoe : Int := yi - era * 400
  let mp : Nat := (m + 9) % 12
  let doy : Int := Int.fdiv (153 * (mp : Int) + 2) 5 + (d : Int) - 1
  let doe : Int := yoe * 365 + Int.fdiv yoe 4 - Int.fdiv yoe 100 + doy
  era * 146097 + doe - 719468

/-- Seconds since the epoch; `a - b` on two `datetime`s has
`total_seconds() = a.toEpochSeconds - b.toEpochSeconds`. -/
def PyDateTime.toEpochSeconds (t : PyDateTime) : Int :=
  daysFromCivil t.year t.month t.day * 86400
    + (t.hour : Int) * 3600 + (t.minute : Int) * 60 + (t.second : Int)

/-- Number of days in a month of the proleptic Gregorian calendar. -/
def daysInMonth (y m : Nat) : Nat :=
  if m = 2 then
    (if y % 4 = 0 ∧ (y % 100 ≠ 0 ∨ y % 400 = 0) then 29 else 28)
  else if m = 4 ∨ m = 6 ∨ m = 9 ∨ m = 11 then 30 else 31

/-- One decimal digit. -/
def parseDigit (c : Char) : Option Nat :=
  if c.isDigit then some (c.toNat - 48) else none

/-- Two decimal digits, returning the value and the remaining characters. -/
def parse2 : List Char → Option (Nat × List Char)
  | a :: b :: rest => do
    let x ← parseDigit a
    let y ← parseDigit b
    pure (x * 10 + y, rest)
  | _ => none

/-- Parse the optional time-of-day part of an ISO-8601 string
(`[T ]HH:MM[:SS]`, empty means midnight). -/
def parseIsoTime (y m d : Nat) : List Char → Option PyDateTime
  | [] => some ⟨y, m, d, 0, 0, 0⟩
  | sep :: rest =>
    if sep = 'T' ∨ sep = ' ' then
      match parse2 rest with
      | some (h, ':' :: r1) =>
        (match parse2 r1 with
         | some (mi, []) =>
           if h ≤ 23 ∧ mi ≤ 59 then some ⟨y, m, d, h, mi, 0⟩ else none
         | some (mi, ':' :: r2) =>
           (match parse2 r2 with
            | some (se, []) =>
              if h ≤ 23 ∧ mi ≤ 59 ∧ se ≤ 59 then some ⟨y, m, d, h, mi, se⟩ else none
            | _ => none)
         | _ => none)
      | _ => none
    else none

/-- Parse a full ISO-8601 string `YYYY-MM-DD[THH:MM[:SS]]`, validating the
calendar ranges exactly as `datetime.fromisoformat` does. -/
def parseIso : List Char → Option PyDateTime
  | y1 :: y2 :: y3 :: y4 :: '-' :: m1 :: m2 :: '-' :: d1 :: d2 :: rest => do
    let a ← parseDigit y1
    let b ← parseDigit y2
    let c ← parseDigit y3
    let e ← parseDigit y4
    let mh ← parseDigit m1
    let ml ← parseDigit m2
    let dh ← parseDigit d1
    let dl ← parseDigit d2
    let y := ((a * 10 + b) * 10 + c) * 10 + e
    let mo := mh * 10 + ml
    let da := dh * 10 + dl
    guard (1 ≤ y)
    guard (1 ≤ mo ∧ mo ≤ 12)
    guard (1 ≤ da ∧ da ≤ daysInMonth y mo)
    parseIsoTime y mo da rest
  | _ => none

/-- `datetime.fromisoformat`: parses or raises `ValueError`. -/
def fromisoformat (s : String) : Except PyErr PyDateTime :=
  match parseIso s.data with
  | some t => Except.ok t
  | none => Except.error PyErr.valueError

/-- Tokenizer behind `pySplit`: `cur` holds the reversed characters of the
token being read. -/
def pySplitGo : List Char → List Char → List String
  | cur, [] => if cur = [] then [] else [String.mk cur.reverse]
  | cur, c :: cs =>
    if c.isWhitespace then
      if cur = [] then pySplitGo [] cs
      else String.mk cur.reverse :: pySplitGo [] cs
    else pySplitGo (c :: cur) cs

/-- Python `str.split()` with no argument: split on whitespace runs,
discarding empty tokens. -/
def pySplit (s : String) : List String :=
  pySplitGo [] s.data

/-- Python `str.lower()` (ASCII case folding). -/
def pyLower (s : String) : String :=
  String.mk (s.data.map Char.toLower)

/-- Python `x or y` on optional strings (`None` and `""` are falsy). -/
def pyOrStr (x y : Option String) : Option String :=
  match x with
  | some s => if s ≠ "" then some s else y
  | none => y

/-- Truthiness of an optional string (`None` and `""` are falsy). -/
def pyTruthyStr : Option String → Bool
  | none => false
  | some s => s ≠ ""

/-- Truthiness of an optional integer (`None` and `0` are falsy). -/
def pyTruthyInt : Option Int → Bool
  | none => false
  | some k => k ≠ 0

/-- Python `d[key]` on our optional-field model: raises `KeyError` when the
field is absent. -/
def pyDictIndex {α : Type} : Option α → Except PyErr α
  | some x => Except.ok x
  | none => Except.error PyErr.keyError

/-! ## Roster data model (models/brightwheel.py, models/nara.py) -/

/-- A Brightwheel `Student` (the identity attributes the pipeline reads). -/
structure Student where
  id : String
  first_name : String
  last_name : String
  birthdate : PyDateTime
deriving DecidableEq, Repr

/-- A Nara `Baby` (the identity attributes the pipeline reads). -/
structure Baby where
  id : String
  name : String
  birth_date : PyDateTime
deriving DecidableEq, Repr

/-- Nara `DiaperStatus` enum. -/
inductive DiaperStatus
  | wet
  | dirty
  | both
  | dry
deriving DecidableEq, Repr

/-- Nara `FeedingType` enum. -/
inductive FeedingType
  | bottle
  | breast
  | solid
  | formula
  | pumped
deriving DecidableEq, Repr

/-- Nara `SleepType` enum. -/
inductive SleepType
  | nap
  | night
deriving DecidableEq, Repr

/-- Nara `DiaperRecord` (the fields the transformer populates). -/
structure DiaperRecord where
  baby_id : String
  timestamp : PyDateTime
  status : DiaperStatus
  cream_applied : Bool
  notes : Option String
deriving DecidableEq, Repr

/-- Nara `FeedingRecord` (the fields the transformer populates). -/
structure FeedingRecord where
  baby_id : String
  timestamp : PyDateTime
  feeding_type : FeedingType
  amount_ml : Option Rat
  food_items : List String
  notes : Option String
deriving DecidableEq, Repr

/-- Nara `SleepRecord` (the fields the transformer populates). -/
structure SleepRecord where
  baby_id : String
  timestamp : PyDateTime
  sleep_type : SleepType
  start_time : PyDateTime
  end_time : Option PyDateTime
  duration_minutes : Option Int
  notes : Option String
deriving DecidableEq, Repr

/-- Nara `HealthRecord` (the fields the transformer populates). -/
structure HealthRecord where
  baby_id : String
  timestamp : PyDateTime
  temperature_celsius : Option Rat
  notes : Option String
deriving DecidableEq, Repr

/-- Nara `PhotoRecord` (the fields the transformer populates). -/
structure PhotoRecord where
  baby_id : String
  timestamp : PyDateTime
  photo_url : String
  caption : Option String
deriving DecidableEq, Repr

/-- A raw Brightwheel activity dictionary as returned by
`BrightwheelClient.get_activities`: every key the transformers read, each
optional because a dictionary may lack it. -/
structure BwActivity where
  id : Option String := none
  activity_type : Option String := none
  timestamp : Option String := none
  notes : Option String := none
  diaper_type : Option String := none
  has_cream : Option Bool := none
  bottle_type : Option String := none
  amount_oz : Option Rat := none
  meal_type : Option String := none
  foods : Option (List String) := none
  amount_eaten : Option String := none
  start_time : Option String := none
  end_time : Option String := none
  duration_minutes : Option Int := none
  temperature_f : Option Rat := none
  method : Option String := none
  photo_urls : Option (List String) := none
  caption : Option String := none
deriving DecidableEq, Repr

/-- A transformed Nara activity record (`model_dump` output), tagged by kind. -/
inductive NaraRecord
  | diaper (r : DiaperRecord)
  | feeding (r : FeedingRecord)
  | sleep (r : SleepRecord)
  | health (r : HealthRecord)
  | photo (r : PhotoRecord)
deriving DecidableEq, Repr

/-- `nara_activity['baby_id'] = baby_id` on the tagged record. -/
def NaraRecord.setBabyId (bid : String) : NaraRecord → NaraRecord
  | NaraRecord.diaper r => NaraRecord.diaper { r with baby_id := bid }
  | NaraRecord.feeding r => NaraRecord.feeding { r with baby_id := bid }
  | NaraRecord.sleep r => NaraRecord.sleep { r with baby_id := bid }
  | NaraRecord.health r => NaraRecord.health { r with baby_id := bid }
  | NaraRecord.photo r => NaraRecord.photo { r with baby_id := bid }

/-! ## Schema transformer (utils/transformers.py) -/

/-- `diaper_map.get(diaper_type, DiaperStatus.WET)`. -/
def diaperStatusOf (s : String) : DiaperStatus :=
  if s = "wet" then DiaperStatus.wet
  else if s = "bm" then DiaperStatus.dirty
  else if s = "wet_bm" then DiaperStatus.both
  else if s = "dry" then DiaperStatus.dry
  else DiaperStatus.wet

/-- `transform_diaper_activity`. -/
def transform_diaper_activity (a : BwActivity) : Except PyErr DiaperRecord := do
  let tsStr ← pyDictIndex a.timestamp
  let ts ← fromisoformat tsStr
  pure { baby_id := ""
         timestamp := ts
         status := diaperStatusOf (a.diaper_type.getD "wet")
         cream_applied := a.has_cream.getD false
         notes := a.notes }

/-- Bottle-type dispatch inside `transform_bottle_activity`. -/
def feedingTypeOf (bottleType : String) : FeedingType :=
  if bottleType = "formula" then FeedingType.formula
  else if bottleType = "pumped" then FeedingType.pumped
  else FeedingType.bottle

/-- `transform_bottle_activity`: ounces are converted with the exact factor
29.5735 ml/oz. -/
def transform_bottle_activity (a : BwActivity) : Except PyErr FeedingRecord := do
  let tsStr ← pyDictIndex a.timestamp
  let ts ← fromisoformat tsStr
  pure { baby_id := ""
         timestamp := ts
         feeding_type := feedingTypeOf (a.bottle_type.getD "milk")
         amount_ml := some ((a.amount_oz.getD 0) * (29.5735 : Rat))
         food_items := []
         notes := a.notes }

/-- `transform_food_activity`. -/
def transform_food_activity (a : BwActivity) : Except PyErr FeedingRecord := do
  let tsStr ← pyDictIndex a.timestamp
  let ts ← fromisoformat tsStr
  let mt := a.meal_type.getD "meal"
  let ae := a.amount_eaten.getD "some"
  let nt := a.notes.getD ""
  pure { baby_id := ""
         timestamp := ts
         feeding_type := FeedingType.solid
         amount_ml := none
         food_items := a.foods.getD []
         notes := some (s!"{mt}: {ae} eaten. {nt}") }

/-- `transform_nap_activity`: an untruthy `end_time` (absent or empty string)
selects the `duration_minutes` pass-through branch, which itself only fires on
a truthy (nonzero) value. -/
def transform_nap_activity (a : BwActivity) : Except PyErr SleepRecord := do
  let sStr ← pyDictIndex a.start_time
  let startT ← fromisoformat sStr
  match a.end_time with
  | some e =>
    if e ≠ "" then do
      let endT ← fromisoformat e
      pure { baby_id := ""
             timestamp := startT
             sleep_type := SleepType.nap
             start_time := startT
             end_time := some endT
             duration_minutes := some ((endT.toEpochSeconds - startT.toEpochSeconds).tdiv 60)
             notes := a.notes }
    else
      pure { baby_id := ""
             timestamp := startT
             sleep_type := SleepType.nap
             start_time := startT
             end_time := none
             duration_minutes := if pyTruthyInt a.duration_minutes then a.duration_minutes else none
             notes := a.notes }
  | none =>
    pure { baby_id := ""
           timestamp := startT
           sleep_type := SleepType.nap
           start_time := startT
           end_time := none
           duration_minutes := if pyTruthyInt a.duration_minutes then a.duration_minutes else none
           notes := a.notes }

/-- `transform_temperature_activity`: Fahrenheit to Celsius by the exact
formula `(F - 32) * 5 / 9`. -/
def transform_temperature_activity (a : BwActivity) : Except PyErr HealthRecord := do
  let tsStr ← pyDictIndex a.timestamp
  let ts ← fromisoformat tsStr
  let tempF := a.temperature_f.getD (98.6 : Rat)
  let meth := a.method.getD "forehead"
  let nt := a.notes.getD ""
  pure { baby_id := ""
         timestamp := ts
         temperature_celsius := some ((tempF - 32) * 5 / 9)
         notes := some (s!"Temperature taken via {meth}. {nt}") }

/-- `transform_photo_activity`. -/
def transform_photo_activity (a : BwActivity) : Except PyErr PhotoRecord := do
  let tsStr ← pyDictIndex a.timestamp
  let ts ← fromisoformat tsStr
  let urls := a.photo_urls.getD []
  pure { baby_id := ""
         timestamp := ts
         photo_url := urls.headD ""
         caption := pyOrStr a.caption a.notes }

/-- `transform_activity`: dispatch on the activity kind; unsupported kinds
yield `none` (no record, not an error). -/
def transform_activity (a : BwActivity) : Except PyErr (Option NaraRecord) :=
  match a.activity_type with
  | some "diaper" => (transform_diaper_activity a).map (fun r => some (NaraRecord.diaper r))
  | some "bottle" => (transform_bottle_activity a).map (fun r => some (NaraRecord.feeding r))
  | some "food" => (transform_food_activity a).map (fun r => some (NaraRecord.feeding r))
  | some "nap" => (transform_nap_activity a).map (fun r => some (NaraRecord.sleep r))
  | some "temperature" => (transform_temperature_activity a).map (fun r => some (NaraRecord.health r))
  | some "photo" => (transform_photo_activity a).map (fun r => some (NaraRecord.photo r))
  | _ => Except.ok none

/-! ## Retry executor and error ledger (utils/errors.py) -/

/-- The loop body of `retry_with_backoff`, with the remaining retries as
fuel.  `op n` is the outcome of the `n`-th invocation of the retried
callable (the remote service's response sequence).  Returns the final
result, the number of invocations made, and the list of back-off sleeps
performed, in order. -/
def retryGo {α : Type} (op : Nat → Except PyErr α) (backoff_factor : Rat) :
    Nat → Nat → Rat → Except PyErr α × Nat × List Rat
  | 0, attempt, _ =>
    (match op attempt with
     | Except.ok a => (Except.ok a, attempt + 1, [])
     | Except.error e => (Except.error e, attempt + 1, []))
  | fuel + 1, attempt, delay =>
    (match op attempt with
     | Except.ok a => (Except.ok a, attempt + 1, [])
     | Except.error _ =>
       let r := retryGo op backoff_factor fuel (attempt + 1) (delay * backoff_factor)
       (r.1, r.2.1, delay :: r.2.2))

/-- `retry_with_backoff(func, max_retries, initial_delay, backoff_factor)`:
up to `max_retries + 1` invocations, exponential back-off between them, the
last exception re-raised after exhaustion. -/
def retry_with_backoff {α : Type} (op : Nat → Except PyErr α) (max_retries : Nat)
    (initial_delay : Rat) (backoff_factor : Rat) : Except PyErr α × Nat × List Rat :=
  retryGo op backoff_factor max_retries 0 initial_delay

/-- One `ErrorLogger.log_error` entry. -/
structure ErrorEntry where
  activity_id : String
  activity_type : String
  error : PyErr
deriving DecidableEq, Repr

/-- The entry `ErrorLogger.log_error` appends for a failed activity. -/
def log_entry (a : BwActivity) (e : PyErr) : ErrorEntry :=
  { activity_id := a.id.getD "unknown"
    activity_type := a.activity_type.getD "unknown"
    error := e }

/-! ## Transfer orchestrator (transfer.py) -/

/-- The configuration fields `DataTransfer` reads (config.py defaults). -/
structure Settings where
  nara_email : Option String := none
  nara_password : Option String := none
  sync_days_back : Nat := 7
  batch_size : Nat := 50
  retry_max_attempts : Nat := 3
  retry_delay_seconds : Rat := 1
  dry_run : Bool := false

/-- The response sequence of `NaraClient.create_generic_activity` for one
activity: given the submitted payload and the invocation index, the call's
outcome. -/
def SubmitOracle : Type := NaraRecord → Nat → Except PyErr Unit

/-- `DataTransfer.transfer_activity`: returns the boolean outcome, the number
of `create_generic_activity` calls issued (write attempts), and the error
entries logged.  Unsupported kinds return `false`; exceptions are caught,
logged and return `false`; dry-run short-circuits before any write. -/
def transfer_activity (settings : Settings) (submit : SubmitOracle)
    (a : BwActivity) (babyId : String) : Bool × Nat × List ErrorEntry :=
  match transform_activity a with
  | Except.error e => (false, 0, [log_entry a e])
  | Except.ok none => (false, 0, [])
  | Except.ok (some nara) =>
    let payload := nara.setBabyId babyId
    if settings.dry_run then (true, 0, [])
    else
      match retry_with_backoff (submit payload) settings.retry_max_attempts
          settings.retry_delay_seconds 2 with
      | (Except.ok _, calls, _) => (true, calls, [])
      | (Except.error e, calls, _) => (false, calls, [log_entry a e])

/-- The run-level counters. -/
structure Stats where
  total : Nat
  successful : Nat
  failed : Nat
  skipped : Nat
deriving DecidableEq, Repr

/-- All-zero counters. -/
def zeroStats : Stats := { total := 0, successful := 0, failed := 0, skipped := 0 }

/-- The statistics update of `sync_student_activities`:
`if success is True / elif success is False / else skipped`.  The results are
booleans, so the third branch is unreachable. -/
def updateStats (st : Stats) (success : Bool) : Stats :=
  if success = true then { st with successful := st.successful + 1 }
  else if success = false then { st with failed := st.failed + 1 }
  else { st with skipped := st.skipped + 1 }

/-- `range(0, len(xs), k)` slicing into consecutive batches, with the list
length as fuel (one slice is taken per step, so length-many steps suffice
whenever `k ≥ 1`). -/
def chunksGo {α : Type} (k : Nat) : Nat → List α → List (List α)
  | _, [] => []
  | 0, _ :: _ => []
  | fuel + 1, x :: xs => (x :: xs).take k :: chunksGo k fuel ((x :: xs).drop k)

/-- Partition a list into consecutive batches of size `k`. -/
def chunks {α : Type} (k : Nat) (xs : List α) : List (List α) :=
  chunksGo k xs.length xs

/-- An activity together with its submission oracle. -/
def TaskItem : Type := BwActivity × SubmitOracle

/-- The accumulator step for one batch: `asyncio.gather` the batch's
transfer results, then update the counters result by result; write counts
and error entries accumulate alongside. -/
def stepBatch (settings : Settings) (babyId : String)
    (acc : Stats × Nat × List ErrorEntry) (batch : List TaskItem) :
    Stats × Nat × List ErrorEntry :=
  let results := batch.map (fun it => transfer_activity settings it.2 it.1 babyId)
  (results.foldl (fun st r => updateStats st r.1) acc.1,
   acc.2.1 + (results.map (fun r => r.2.1)).sum,
   acc.2.2 ++ (results.map (fun r => r.2.2)).flatten)

/-- `DataTransfer.sync_student_activities`: `total` is the number of fetched
activities; the batches are processed in order and each batch's boolean
results update the counters. -/
def sync_student_activities (settings : Settings) (items : List TaskItem)
    (babyId : String) : Stats × Nat × List ErrorEntry :=
  let stats0 : Stats :=
    { total := items.length, successful := 0, failed := 0, skipped := 0 }
  (chunks settings.batch_size items).foldl (stepBatch settings babyId) (stats0, 0, [])

/-! ## Identity reconciler (transfer.py, map_students_to_babies) -/

/-- The inner `for baby in babies` scan for one student: examining a baby
first takes `baby.name.split()[0]` (raising `IndexError` on an empty token
list), then compares the lowered first token and the calendar birth dates;
the first match wins. -/
def findMatchingBaby (student : Student) : List Baby → Except PyErr (Option Baby)
  | [] => Except.ok none
  | baby :: rest =>
    match pySplit baby.name with
    | [] => Except.error PyErr.indexError
    | tok :: _ =>
      if pyLower student.first_name = pyLower tok ∧
          student.birthdate.dateTuple = baby.birth_date.dateTuple then
        Except.ok (some baby)
      else
        findMatchingBaby student rest

/-- Python dict assignment `m[k] = v` on an insertion-ordered association
list: overwrite the first occurrence of the key in place if it exists, else
append at the end. -/
def dictInsert : List (String × String) → String → String → List (String × String)
  | [], k, v => [(k, v)]
  | p :: rest, k, v =>
    if p.1 = k then (k, v) :: rest else p :: dictInsert rest k v

/-- Python `m.get(k)` on the association list. -/
def dictGet? : List (String × String) → String → Option String
  | [], _ => none
  | p :: rest, k => if p.1 = k then some p.2 else dictGet? rest k

/-- The outer `for student in students` loop of `map_students_to_babies`,
threading the mapping dictionary. -/
def mapLoop (babies : List Baby) :
    List Student → List (String × String) → Except PyErr (List (String × String))
  | [], m => Except.ok m
  | s :: rest, m =>
    match findMatchingBaby s babies with
    | Except.error e => Except.error e
    | Except.ok none => mapLoop babies rest m
    | Except.ok (some b) => mapLoop babies rest (dictInsert m s.id b.id)

/-- `DataTransfer.map_students_to_babies`. -/
def map_students_to_babies (students : List Student) (babies : List Baby) :
    Except PyErr (List (String × String)) :=
  mapLoop babies students []

/-- The specification's match condition, written from the spec's words: the
first token of the baby's name equals the student's first name
case-insensitively, and the birth dates agree as calendar dates. -/
def specMatch (s : Student) (b : Baby) : Bool :=
  match pySplit b.name with
  | [] => false
  | tok :: _ =>
    pyLower s.first_name == pyLower tok &&
      decide (s.birthdate.dateTuple = b.birth_date.dateTuple)

/-! ## The full run (transfer.py, DataTransfer.run) -/

/-- The environment of one run: the configuration, the rosters the two
clients return, and each student's fetched activities with their submission
oracles. -/
structure RunEnv where
  settings : Settings
  students : List Student
  babies : List Baby
  activities : String → List TaskItem

/-- What a completed run did: which fetches happened, the mapping built,
whether the run returned early, and the aggregate counters and effects. -/
structure RunReport where
  naraAuthed : Bool
  sourceRosterFetched : Bool
  targetRosterFetched : Bool
  mapping : List (String × String)
  earlyReturn : Bool
  stats : Stats
  writes : Nat
  errors : List ErrorEntry

/-- Outcome of `DataTransfer.run`: normal completion, or the top-level
`except` clause re-raising as `TransferError`. -/
inductive RunOutcome
  | completed (report : RunReport)
  | transferError (cause : PyErr)

/-- The per-student sync loop of `run`: students with no mapped (truthy)
baby id are skipped; the rest are synced and their statistics summed. -/
def syncLoop (env : RunEnv) (naraAuthed targetFetched : Bool)
    (mapping : List (String × String)) : RunReport :=
  let res := env.students.foldl
    (fun acc student =>
      match dictGet? mapping student.id with
      | none => acc
      | some babyId =>
        if babyId = "" then acc
        else
          let r := sync_student_activities env.settings (env.activities student.id) babyId
          ({ total := acc.1.total + r.1.total
             successful := acc.1.successful + r.1.successful
             failed := acc.1.failed + r.1.failed
             skipped := acc.1.skipped + r.1.skipped },
           acc.2.1 + r.2.1, acc.2.2 ++ r.2.2))
    (zeroStats, 0, [])
  { naraAuthed := naraAuthed
    sourceRosterFetched := true
    targetRosterFetched := targetFetched
    mapping := mapping
    earlyReturn := false
    stats := res.1
    writes := res.2.1
    errors := res.2.2 }

/-- `DataTransfer.run` on an environment where both authentications and the
roster fetches succeed: Nara authentication is attempted iff both target
credentials are present; with no students, or with target auth attempted but
an empty mapping, the run returns early and normally; an exception escaping
(for example from `map_students_to_babies`) is wrapped in `TransferError`. -/
def run (env : RunEnv) : RunOutcome :=
  let naraAuthed := env.settings.nara_email.isSome && env.settings.nara_password.isSome
  if env.students.isEmpty then
    RunOutcome.completed
      { naraAuthed := naraAuthed
        sourceRosterFetched := true
        targetRosterFetched := false
        mapping := []
        earlyReturn := true
        stats := zeroStats
        writes := 0
        errors := [] }
  else if naraAuthed then
    match map_students_to_babies env.students env.babies with
    | Except.error e => RunOutcome.transferError e
    | Except.ok mapping =>
      if mapping.isEmpty then
        RunOutcome.completed
          { naraAuthed := true
            sourceRosterFetched := true
            targetRosterFetched := true
            mapping := mapping
            earlyReturn := true
            stats := zeroStats
            writes := 0
            errors := [] }
      else
        RunOutcome.completed (syncLoop env true true mapping)
  else
    RunOutcome.completed (syncLoop env false false [])

/-- Whether a run ended in the top-level `TransferError`. -/
def RunOutcome.isTransferError : RunOutcome → Bool
  | RunOutcome.transferError _ => true
  | RunOutcome.completed _ => false

/-- `transform_nap_activity` projected to the resulting sleep duration. -/
def napDuration (a : BwActivity) : Except PyErr (Option Int) :=
  (transform_nap_activity a).map SleepRecord.duration_minutes

/-- The source activity kinds the transformer dispatch table covers. -/
def supportedKinds : List String :=
  ["diaper", "bottle", "food", "nap", "temperature", "photo"]

/-! ## Concrete fixtures used by witnesses and counterexamples -/

/-- A Brightwheel student. -/
def ava : Student := ⟨"s1", "Ava", "Smith", ⟨2022, 1, 5, 0, 0, 0⟩⟩

/-- A twin sibling sharing Ava's first name (case differs) and birth date. -/
def avaTwin : Student := ⟨"s2", "ava", "Smith", ⟨2022, 1, 5, 23, 59, 59⟩⟩

/-- The Nara baby matching `ava` (birth time of day differs). -/
def avaBaby : Baby := ⟨"b1", "Ava Smith", ⟨2022, 1, 5, 9, 0, 0⟩⟩

/-- A second Nara baby that also satisfies the match condition for `ava`. -/
def avaJonesBaby : Baby := ⟨"b2", "Ava Jones", ⟨2022, 1, 5, 0, 0, 0⟩⟩

/-- A Nara baby with an empty name, whose first-token access raises. -/
def emptyNameBaby : Baby := ⟨"b3", "", ⟨2022, 1, 5, 0, 0, 0⟩⟩

/-- A Nara baby matching no student fixture. -/
def bobBaby : Baby := ⟨"b4", "Bob Roberts", ⟨2020, 2, 2, 0, 0, 0⟩⟩

/-- Default settings (live mode). -/
def settingsLive : Settings := {}

/-- Default settings with the dry-run flag on. -/
def settingsDry : Settings := { dry_run := true }

/-- A submission oracle whose every call succeeds. -/
def alwaysOk : SubmitOracle := fun _ _ => Except.ok ()

/-- A submission oracle whose every call fails. -/
def alwaysFail : SubmitOracle := fun _ _ => Except.error (PyErr.apiError "503")

/-- An activity of an unsupported kind. -/
def moodActivity : BwActivity :=
  { id := some "a1", activity_type := some "mood", timestamp := some "2024-03-04T10:00:00" }

/-- A well-formed diaper activity. -/
def diaperWellFormed : BwActivity :=
  { id := some "a2", activity_type := some "diaper",
    timestamp := some "2024-03-04T10:00:00", diaper_type := some "wet_bm" }

/-- A diaper activity whose dictionary lacks the `timestamp` key. -/
def diaperNoTimestamp : BwActivity := { activity_type := some "diaper" }

/-- A nap from 08:00 to 09:30. -/
def napMorning : BwActivity :=
  { id := some "a3", activity_type := some "nap",
    start_time := some "2024-01-02T08:00:00", end_time := some "2024-01-02T09:30:00" }

/-- A nap with no end time and an explicit zero duration. -/
def napZeroDuration : BwActivity :=
  { activity_type := some "nap", start_time := some "2024-01-02T08:00:00",
    duration_minutes := some 0 }

/-- An environment with target credentials whose rosters share no match. -/
def envZeroMatch : RunEnv :=
  { settings := { nara_email := some "parent@example.com", nara_password := some "pw" }
    students := [ava]
    babies := [bobBaby]
    activities := fun _ => [(diaperWellFormed, alwaysOk)] }

/-- An environment with no target credentials (read-only mode). -/
def envReadOnly : RunEnv :=
  { settings := {}
    students := [ava]
    babies := []
    activities := fun _ => [(diaperWellFormed, alwaysFail)] }

/-! ## C1 -/

/-- C1: the claim says an activity of an unsupported kind is counted in
`skipped`, not as an error.  The code counts it in `failed`:
`transfer_activity` returns `False` for unsupported kinds, and the
statistics loop classifies `False` as failed, so its `skipped` branch is
unreachable.  Evaluating the sync on a single unsupported (`mood`) activity:
the transform yields no record and the counters come out
`total 1, successful 0, failed 1, skipped 0` (with zero writes and no
ledger entry). -/
theorem unsupported_kind_counted_as_failed :
    transform_activity moodActivity = Except.ok none ∧
    sync_student_activities settingsLive [(moodActivity, alwaysOk)] "b1" =
      ({ total := 1, successful := 0, failed := 1, skipped := 0 }, 0, []) :=
  ⟨rfl, rfl⟩

/-! ## C9 -/

/-- C9 counterexample: the claim asserts that any empty-named target entry
makes `map_students_to_babies` raise `IndexError` for every nonempty source
roster.  Concretely, with the empty-named baby listed after a matching baby,
the single student matches first and the scan never reaches the empty name:
the call returns a mapping, not an error. -/
theorem empty_name_after_match_no_raise :
    emptyNameBaby.name = "" ∧ ([ava] : List Student) ≠ [] ∧
    map_students_to_babies [ava] [avaBaby, emptyNameBaby] =
      Except.ok [("s1", "b1")] :=
  ⟨rfl, by simp, rfl⟩

/-- C9 (amended): if the empty-named entry is scanned before any match — in
particular whenever it heads the target roster — `map_students_to_babies`
raises `IndexError` for every nonempty source roster, instead of skipping
that entry. -/
theorem empty_name_first_raises (students : List Student) (b0 : Baby)
    (rest : List Baby) (hname : pySplit b0.name = []) (hne : students ≠ []) :
    map_students_to_babies students (b0 :: rest) = Except.error PyErr.indexError := by
  cases students with
  | nil => exact absurd rfl hne
  | cons s ss =>
    simp [map_students_to_babies, mapLoop, findMatchingBaby, hname]

/-- C9 witness: with the empty-named baby first, a one-student roster makes
the reconciler raise. -/
theorem empty_name_first_raises_witness :
    map_students_to_babies [ava] [emptyNameBaby, avaBaby] =
      Except.error PyErr.indexError :=
  empty_name_first_raises [ava] emptyNameBaby [avaBaby] rfl (by simp)

/-! ## C4 -/

/-- C4 counterexample: `transform_activity` is not total over all input
dictionaries of a supported kind — a diaper activity lacking the
`timestamp` key raises `KeyError` instead of returning a record. -/
theorem transform_raises_on_missing_timestamp :
    diaperNoTimestamp.activity_type = some "diaper" ∧
    transform_activity diaperNoTimestamp = Except.error PyErr.keyError :=
  ⟨rfl, rfl⟩

/-- `Except.ok` is left identity for bind. -/
theorem exceptBind_ok {α β : Type} (a : α) (f : α → Except PyErr β) :
    (Except.ok a >>= f) = f a := rfl

/-- Mapping over `Except.ok`. -/
theorem exceptMap_ok {α β : Type} (a : α) (f : α → β) :
    (Except.ok a : Except PyErr α).map f = Except.ok (f a) := rfl

/-- C4 (amended): `transform_activity` is total and deterministic on every
well-formed activity of a supported kind — one whose required timestamp
fields are present and parseable (`timestamp` for all kinds but naps;
`start_time`, and `end_time` when present and nonempty, for naps) — but not
on arbitrary dictionaries of a supported kind. -/
theorem transform_total_on_wellformed (a : BwActivity) (k : String)
    (hk : a.activity_type = some k) (hsup : k ∈ supportedKinds)
    (hts : k ≠ "nap" → ∃ s t, a.timestamp = some s ∧ fromisoformat s = Except.ok t)
    (hnap : k = "nap" →
      (∃ s t, a.start_time = some s ∧ fromisoformat s = Except.ok t) ∧
      (∀ e, a.end_time = some e → e ≠ "" → ∃ t, fromisoformat e = Except.ok t)) :
    (∃ r, transform_activity a = Except.ok (some r)) ∧
      transform_activity a = transform_activity a := by
  refine ⟨?_, rfl⟩
  simp only [supportedKinds, List.mem_cons, List.not_mem_nil, or_false] at hsup
  rcases hsup with rfl | rfl | rfl | rfl | rfl | rfl
  · obtain ⟨s, t, hs, hft⟩ := hts (by decide)
    exact ⟨_, by simp [transform_activity, hk, transform_diaper_activity, hs, hft,
      pyDictIndex, exceptBind_ok, exceptMap_ok]; rfl⟩
  · obtain ⟨s, t, hs, hft⟩ := hts (by decide)
    exact ⟨_, by simp [transform_activity, hk, transform_bottle_activity, hs, hft,
      pyDictIndex, exceptBind_ok, exceptMap_ok]; rfl⟩
  · obtain ⟨s, t, hs, hft⟩ := hts (by decide)
    exact ⟨_, by simp [transform_activity, hk, transform_food_activity, hs, hft,
      pyDictIndex, exceptBind_ok, exceptMap_ok]; rfl⟩
  · obtain ⟨⟨s, t, hs, hft⟩, hend⟩ := hnap rfl
    cases he : a.end_time with
    | none =>
      exact ⟨_, by simp [transform_activity, hk, transform_nap_activity, hs, hft,
        pyDictIndex, he, exceptBind_ok, exceptMap_ok]; rfl⟩
    | some e =>
      by_cases hee : e = ""
      · subst hee
        exact ⟨_, by simp [transform_activity, hk, transform_nap_activity, hs, hft,
          pyDictIndex, he, exceptBind_ok, exceptMap_ok]; rfl⟩
      · obtain ⟨t2, hft2⟩ := hend e he hee
        exact ⟨_, by simp [transform_activity, hk, transform_nap_activity, hs, hft,
          pyDictIndex, he, hee, hft2, exceptBind_ok, exceptMap_ok]; rfl⟩
  · obtain ⟨s, t, hs, hft⟩ := hts (by decide)
    exact ⟨_, by simp [transform_activity, hk, transform_temperature_activity, hs, hft,
      pyDictIndex, exceptBind_ok, exceptMap_ok]; rfl⟩
  · obtain ⟨s, t, hs, hft⟩ := hts (by decide)
    exact ⟨_, by simp [transform_activity, hk, transform_photo_activity, hs, hft,
      pyDictIndex, exceptBind_ok, exceptMap_ok]; rfl⟩

/-- C4 witness: the amended totality theorem applied to a concrete
well-formed diaper activity. -/
theorem transform_total_on_wellformed_witness :
    (∃ r, transform_activity diaperWellFormed = Except.ok (some r)) ∧
      transform_activity diaperWellFormed = transform_activity diaperWellFormed :=
  transform_total_on_wellformed diaperWellFormed "diaper" rfl (by decide)
    (fun _ => ⟨"2024-03-04T10:00:00", ⟨2024, 3, 4, 10, 0, 0⟩, rfl, rfl⟩)
    (fun h => absurd h (by decide))

/-! ## C7 -/

/-- C7 counterexample: a nap with no end time and an explicit
`duration_minutes` of `0` does not have its duration passed through — the
pass-through branch tests Python truthiness, and `0` is falsy, so the
resulting record's duration is absent rather than `0`. -/
theorem nap_zero_duration_dropped :
    napZeroDuration.duration_minutes = some 0 ∧
    napZeroDuration.end_time = none ∧
    napDuration napZeroDuration = Except.ok none ∧
    napDuration napZeroDuration ≠ Except.ok (some 0) :=
  ⟨rfl, rfl, rfl, fun h => Option.noConfusion (Except.ok.inj h)⟩

/-- C7 (amended): for a nap with a parseable start time, a present (and
nonempty) parseable end time makes the sleep record's duration the whole
number of minutes in `end - start`; with no truthy end time, a nonzero
explicit `duration_minutes` is passed through unchanged, while a zero or
missing one yields an absent duration. -/
theorem nap_duration_amended (a : BwActivity) (s : String) (st : PyDateTime)
    (hs : a.start_time = some s) (hp : fromisoformat s = Except.ok st) :
    (∀ e et, a.end_time = some e → e ≠ "" → fromisoformat e = Except.ok et →
      napDuration a = Except.ok (some ((et.toEpochSeconds - st.toEpochSeconds).tdiv 60))) ∧
    ((a.end_time = none ∨ a.end_time = some "") →
      (∀ k, a.duration_minutes = some k → k ≠ 0 →
        napDuration a = Except.ok (some k)) ∧
      ((a.duration_minutes = none ∨ a.duration_minutes = some 0) →
        napDuration a = Except.ok none)) := by
  constructor
  · intro e et he hne hfe
    simp [napDuration, transform_nap_activity, hs, hp, pyDictIndex, he, hne, hfe,
      exceptBind_ok, exceptMap_ok]
  · intro hend
    constructor
    · intro k hk hkne
      rcases hend with h | h <;>
        simp [napDuration, transform_nap_activity, hs, hp, pyDictIndex, h, hk,
          pyTruthyInt, hkne, exceptBind_ok, exceptMap_ok]
    · intro hdur
      rcases hend with h | h <;> rcases hdur with h2 | h2 <;>
        simp [napDuration, transform_nap_activity, hs, hp, pyDictIndex, h, h2,
          pyTruthyInt, exceptBind_ok, exceptMap_ok]

/-- C7 witness: the nap from 08:00 to 09:30 gets `duration_minutes = 90`. -/
theorem nap_duration_amended_witness :
    napDuration napMorning = Except.ok (some 90) := by
  have h := (nap_duration_amended napMorning "2024-01-02T08:00:00"
      ⟨2024, 1, 2, 8, 0, 0⟩ rfl rfl).1
      "2024-01-02T09:30:00" ⟨2024, 1, 2, 9, 30, 0⟩ rfl (by decide) rfl
  exact h.trans (by rfl)

/-! ## Reconciler lemmas -/

/-- Looking up a freshly inserted key. -/
theorem dictGet?_dictInsert_self (m : List (String × String)) (k v : String) :
    dictGet? (dictInsert m k v) k = some v := by
  induction m with
  | nil => simp [dictInsert, dictGet?]
  | cons p rest ih =>
    by_cases h : p.1 = k
    · simp [dictInsert, h, dictGet?]
    · simp [dictInsert, h, dictGet?, ih]

/-- Inserting one key leaves the other keys' lookups unchanged. -/
theorem dictGet?_dictInsert_ne (m : List (String × String)) (k v x : String)
    (hx : x ≠ k) : dictGet? (dictInsert m k v) x = dictGet? m x := by
  have hkx : k ≠ x := fun h => hx h.symm
  induction m with
  | nil => simp [dictInsert, dictGet?, hkx]
  | cons p rest ih =>
    by_cases h : p.1 = k
    · have hpx : ¬ p.1 = x := fun hcontra => hx (hcontra ▸ h)
      simp [dictInsert, h, dictGet?, hkx, hpx]
    · simp [dictInsert, h, dictGet?, ih]

/-- Membership in the keys after an insertion. -/
theorem mem_keys_dictInsert (m : List (String × String)) (k v x : String) :
    x ∈ (dictInsert m k v).map Prod.fst ↔ x ∈ m.map Prod.fst ∨ x = k := by
  induction m with
  | nil => simp [dictInsert]
  | cons p rest ih =>
    by_cases h : p.1 = k
    · obtain ⟨p1, p2⟩ := p
      cases h
      simp [dictInsert]
      tauto
    · simp [dictInsert, h, ih]
      tauto

/-- Insertion preserves distinctness of the dictionary's keys. -/
theorem dictInsert_keys_nodup (m : List (String × String)) (k v : String)
    (h : (m.map Prod.fst).Nodup) : ((dictInsert m k v).map Prod.fst).Nodup := by
  induction m with
  | nil => simp [dictInsert]
  | cons p rest ih =>
    simp only [List.map_cons, List.nodup_cons] at h
    by_cases hk : p.1 = k
    · obtain ⟨p1, p2⟩ := p
      cases hk
      have hstep : dictInsert ((p1, p2) :: rest) p1 v = (p1, v) :: rest := by
        simp [dictInsert]
      rw [hstep, List.map_cons, List.nodup_cons]
      exact ⟨h.1, h.2⟩
    · simp only [dictInsert, if_neg hk, List.map_cons, List.nodup_cons]
      refine ⟨?_, ih h.2⟩
      rw [mem_keys_dictInsert]
      rintro (hmem | rfl)
      · exact h.1 hmem
      · exact hk rfl

/-- If the reconciliation loop returns a mapping, its keys are distinct
(it is a Python dictionary). -/
theorem mapLoop_keys_nodup (babies : List Baby) :
    ∀ (students : List Student) (m0 m : List (String × String)),
      (m0.map Prod.fst).Nodup → mapLoop babies students m0 = Except.ok m →
      (m.map Prod.fst).Nodup := by
  intro students
  induction students with
  | nil =>
    intro m0 m h0 hok
    simp only [mapLoop] at hok
    cases hok
    exact h0
  | cons s rest ih =>
    intro m0 m h0 hok
    simp only [mapLoop] at hok
    cases hfind : findMatchingBaby s babies with
    | error e => rw [hfind] at hok; cases hok
    | ok ob =>
      rw [hfind] at hok
      cases ob with
      | none => exact ih m0 m h0 hok
      | some b => exact ih (dictInsert m0 s.id b.id) m (dictInsert_keys_nodup m0 s.id b.id h0) hok

/-- The inner scan agrees with `List.find?` of the spec's match condition
whenever it does not raise. -/
theorem findMatchingBaby_eq_find? (s : Student) :
    ∀ (bs : List Baby) (r : Option Baby),
      findMatchingBaby s bs = Except.ok r → bs.find? (specMatch s) = r := by
  intro bs
  induction bs with
  | nil =>
    intro r h
    simp only [findMatchingBaby] at h
    cases h
    rfl
  | cons b rest ih =>
    intro r h
    cases htok : pySplit b.name with
    | nil =>
      simp only [findMatchingBaby, htok] at h
      exact Except.noConfusion h
    | cons tok ts =>
      simp only [findMatchingBaby, htok] at h
      by_cases hc : pyLower s.first_name = pyLower tok ∧
          s.birthdate.dateTuple = b.birth_date.dateTuple
      · rw [if_pos hc] at h
        cases h
        have hm : specMatch s b = true := by
          simp [specMatch, htok, hc.1, hc.2]
        simp [List.find?, hm]
      · rw [if_neg hc] at h
        have hm : specMatch s b = false := by
          simp only [specMatch, htok, Bool.and_eq_false_iff]
          by_cases h1 : pyLower s.first_name = pyLower tok
          · refine Or.inr ?_
            simp only [decide_eq_false_iff_not]
            exact fun h2 => hc ⟨h1, h2⟩
          · exact Or.inl (by simpa using h1)
        simp [List.find?, hm, ih r h]

/-- The reconciliation loop's lookups, relative to its accumulator: keys of
unprocessed students are untouched, and each processed student's lookup is
its first list match (falling back to the accumulator when unmatched). -/
theorem mapLoop_lookup (babies : List Baby) :
    ∀ (students : List Student) (m0 m : List (String × String)),
      (students.map Student.id).Nodup →
      mapLoop babies students m0 = Except.ok m →
      (∀ k, k ∉ students.map Student.id → dictGet? m k = dictGet? m0 k) ∧
      (∀ s ∈ students, dictGet? m s.id =
        match babies.find? (specMatch s) with
        | some b => some b.id
        | none => dictGet? m0 s.id) := by
  intro students
  induction students with
  | nil =>
    intro m0 m _ hok
    simp only [mapLoop] at hok
    cases hok
    exact ⟨fun k _ => rfl, fun s hs => absurd hs (List.not_mem_nil s)⟩
  | cons s rest ih =>
    intro m0 m hids hok
    simp only [List.map_cons, List.nodup_cons] at hids
    simp only [mapLoop] at hok
    cases hfind : findMatchingBaby s babies with
    | error e => rw [hfind] at hok; cases hok
    | ok ob =>
      rw [hfind] at hok
      have hfind? := findMatchingBaby_eq_find? s babies ob hfind
      cases ob with
      | none =>
        obtain ⟨hA, hB⟩ := ih m0 m hids.2 hok
        constructor
        · intro k hk
          exact hA k (fun hmem => hk (List.mem_cons_of_mem _ hmem))
        · intro s' hs'
          rcases List.mem_cons.mp hs' with rfl | hmem
          · rw [hfind?]
            exact hA s'.id hids.1
          · exact hB s' hmem
      | some b =>
        obtain ⟨hA, hB⟩ := ih (dictInsert m0 s.id b.id) m hids.2 hok
        constructor
        · intro k hk
          have hk1 : k ≠ s.id := fun hkeq => hk (hkeq ▸ List.mem_cons_self _ _)
          have hk2 : k ∉ rest.map Student.id := fun hmem => hk (List.mem_cons_of_mem _ hmem)
          rw [hA k hk2, dictGet?_dictInsert_ne m0 s.id b.id k hk1]
        · intro s' hs'
          rcases List.mem_cons.mp hs' with rfl | hmem
          · rw [hfind?, hA s'.id hids.1, dictGet?_dictInsert_self]
          · rw [hB s' hmem]
            cases hf : babies.find? (specMatch s') with
            | some b' => rfl
            | none =>
              have hne : s'.id ≠ s.id := by
                intro heq
                exact hids.1 (heq ▸ List.mem_map_of_mem Student.id hmem)
              exact dictGet?_dictInsert_ne m0 s.id b.id s'.id hne

/-! ## C3 -/

/-- C3: whenever reconciliation returns a mapping (no entry raised) and the
source ids are distinct, each source entity's image under the mapping is
exactly the first target entity in list order satisfying the spec's match
condition — case-insensitive first-token name equality plus calendar birth
date equality — and entities with no such target are absent from the
mapping. -/
theorem reconcile_first_match (students : List Student) (babies : List Baby)
    (m : List (String × String))
    (hok : map_students_to_babies students babies = Except.ok m)
    (hids : (students.map Student.id).Nodup)
    (s : Student) (hs : s ∈ students) :
    dictGet? m s.id = (babies.find? (specMatch s)).map Baby.id := by
  have h := (mapLoop_lookup babies students [] m hids hok).2 s hs
  rw [h]
  cases hf : babies.find? (specMatch s) with
  | some b => rfl
  | none => rfl

/-- C3 witness: `ava` maps to the first of the two equally matching babies
in target-list order. -/
theorem reconcile_first_match_witness :
    dictGet? [("s1", "b1")] ava.id =
      (([avaBaby, avaJonesBaby]).find? (specMatch ava)).map Baby.id :=
  reconcile_first_match [ava] [avaBaby, avaJonesBaby] [("s1", "b1")] rfl
    (by simp) ava (by simp)

/-! ## C10 -/

/-- C10: the identity mapping is a function on source ids but not
one-to-one.  Concretely, twins sharing a first name (case-insensitively)
and birth date both map to the same target id; and in general any returned
mapping has distinct keys, so each source id appears at most once. -/
theorem mapping_function_not_injective :
    map_students_to_babies [ava, avaTwin] [avaBaby] =
        Except.ok [("s1", "b1"), ("s2", "b1")] ∧
    ∀ (students : List Student) (babies : List Baby) (m : List (String × String)),
      map_students_to_babies students babies = Except.ok m →
      (m.map Prod.fst).Nodup := by
  constructor
  · rfl
  · intro students babies m hok
    exact mapLoop_keys_nodup babies students [] m (by simp) hok

/-- C10 witness: the general distinct-keys part applied to the twin roster,
whose mapping sends two distinct source ids to the same target id. -/
theorem mapping_function_not_injective_witness :
    (([("s1", "b1"), ("s2", "b1")] : List (String × String)).map Prod.fst).Nodup :=
  mapping_function_not_injective.2 [ava, avaTwin] [avaBaby]
    [("s1", "b1"), ("s2", "b1")] mapping_function_not_injective.1

/-! ## Retry lemmas -/

/-- The expected back-off schedule: `n` sleeps, the `i`-th (0-based) equal
to `d * b ^ i` — i.e. the sleep before the `i`-th retry (1-based) is
`d * b ^ (i - 1)`. -/
def geomSleeps (d b : Rat) (n : Nat) : List Rat :=
  (List.range n).map (fun i => d * b ^ i)

/-- Unfolding one step of the schedule. -/
theorem geomSleeps_succ (d b : Rat) (n : Nat) :
    geomSleeps d b (n + 1) = d :: geomSleeps (d * b) b n := by
  unfold geomSleeps
  rw [List.range_succ_eq_map]
  simp only [List.map_cons, List.map_map, pow_zero, mul_one]
  refine congrArg (fun l => d :: l) ?_
  refine List.map_congr_left ?_
  intro i _
  simp only [Function.comp_apply, pow_succ]
  ring

/-- The retry loop makes at most `fuel + 1` further invocations. -/
theorem retryGo_calls_le {α : Type} (op : Nat → Except PyErr α) (b : Rat) :
    ∀ (fuel attempt : Nat) (d : Rat),
      (retryGo op b fuel attempt d).2.1 ≤ attempt + fuel + 1 := by
  intro fuel
  induction fuel with
  | zero =>
    intro attempt d
    cases hop : op attempt <;> simp [retryGo, hop]
  | succ f ih =>
    intro attempt d
    cases hop : op attempt with
    | ok a => simp [retryGo, hop]
    | error e =>
      have hrec := ih (attempt + 1) (d * b)
      simp [retryGo, hop]
      omega

/-- If the invocations before the `j`-th (0-based) fail and the `j`-th
succeeds within the budget, the loop returns that success after exactly
`j + 1` invocations and `j` sleeps. -/
theorem retryGo_first_success {α : Type} (op : Nat → Except PyErr α) (b : Rat) :
    ∀ (j fuel attempt : Nat) (d : Rat) (a : α),
      j ≤ fuel →
      (∀ i, i < j → (op (attempt + i)).isOk = false) →
      op (attempt + j) = Except.ok a →
      (retryGo op b fuel attempt d).1 = Except.ok a ∧
      (retryGo op b fuel attempt d).2.1 = attempt + j + 1 ∧
      (retryGo op b fuel attempt d).2.2.length = j := by
  intro j
  induction j with
  | zero =>
    intro fuel attempt d a _ _ hok
    rw [Nat.add_zero] at hok
    cases fuel <;> simp [retryGo, hok]
  | succ j ih =>
    intro fuel attempt d a hj hfail hok
    obtain ⟨f, rfl⟩ : ∃ f, fuel = f + 1 := ⟨fuel - 1, by omega⟩
    obtain ⟨e, he⟩ : ∃ e, op attempt = Except.error e := by
      have h0 := hfail 0 (Nat.succ_pos j)
      rw [Nat.add_zero] at h0
      cases hop : op attempt with
      | ok x => rw [hop] at h0; simp [Except.isOk, Except.toBool] at h0
      | error e1 => exact ⟨e1, rfl⟩
    obtain ⟨h1, h2, h3⟩ := ih f (attempt + 1) (d * b) a (by omega)
      (fun i hi => by
        have hh := hfail (i + 1) (by omega)
        have harith : attempt + (i + 1) = attempt + 1 + i := by omega
        rw [harith] at hh
        exact hh)
      (by
        have harith : attempt + 1 + j = attempt + (j + 1) := by omega
        rw [harith]
        exact hok)
    refine ⟨?_, ?_, ?_⟩
    · simpa [retryGo, he] using h1
    · simp [retryGo, he]
      omega
    · simp [retryGo, he]
      omega

/-- The sleeps performed are exactly the geometric back-off schedule. -/
theorem retryGo_sleeps_geom {α : Type} (op : Nat → Except PyErr α) (b : Rat) :
    ∀ (fuel attempt : Nat) (d : Rat),
      (retryGo op b fuel attempt d).2.2 =
        geomSleeps d b (retryGo op b fuel attempt d).2.2.length := by
  intro fuel
  induction fuel with
  | zero =>
    intro attempt d
    cases hop : op attempt <;> simp [retryGo, hop, geomSleeps]
  | succ f ih =>
    intro attempt d
    cases hop : op attempt with
    | ok a => simp [retryGo, hop, geomSleeps]
    | error e =>
      have hrec := ih (attempt + 1) (d * b)
      simpa [retryGo, hop, geomSleeps_succ] using hrec

/-- If every invocation in the budget fails, the loop makes all
`fuel + 1` invocations and re-raises the last exception. -/
theorem retryGo_exhaust {α : Type} (op : Nat → Except PyErr α) (b : Rat) :
    ∀ (fuel attempt : Nat) (d : Rat) (e : PyErr),
      (∀ i, i ≤ fuel → (op (attempt + i)).isOk = false) →
      op (attempt + fuel) = Except.error e →
      (retryGo op b fuel attempt d).1 = Except.error e ∧
      (retryGo op b fuel attempt d).2.1 = attempt + fuel + 1 := by
  intro fuel
  induction fuel with
  | zero =>
    intro attempt d e _ hlast
    rw [Nat.add_zero] at hlast
    simp [retryGo, hlast]
  | succ f ih =>
    intro attempt d e hfail hlast
    obtain ⟨e0, he0⟩ : ∃ e0, op attempt = Except.error e0 := by
      have h0 := hfail 0 (Nat.zero_le _)
      rw [Nat.add_zero] at h0
      cases hop : op attempt with
      | ok x => rw [hop] at h0; simp [Except.isOk, Except.toBool] at h0
      | error e1 => exact ⟨e1, rfl⟩
    obtain ⟨hr1, hr2⟩ := ih (attempt + 1) (d * b) e
      (fun i hi => by
        have hh := hfail (i + 1) (by omega)
        have harith : attempt + (i + 1) = attempt + 1 + i := by omega
        rw [harith] at hh
        exact hh)
      (by
        have harith : attempt + 1 + f = attempt + (f + 1) := by omega
        rw [harith]
        exact hlast)
    refine ⟨?_, ?_⟩
    · simpa [retryGo, he0] using hr1
    · simp [retryGo, he0]
      omega

/-! ## C6 -/

/-- C6: `retry_with_backoff` invokes the operation at most
`max_retries + 1` times; when the invocations before the `k`-th fail and
the `k`-th succeeds within budget, it returns that success immediately,
after exactly `k + 1` invocations; the sleeps performed are the geometric
schedule (the sleep before the `i`-th retry is
`initial_delay * backoff_factor ^ (i - 1)`); and when every invocation in
the budget fails, it makes all `max_retries + 1` invocations and re-raises
the last exception. -/
theorem retry_with_backoff_spec {α : Type} (op : Nat → Except PyErr α)
    (m : Nat) (d b : Rat) :
    (retry_with_backoff op m d b).2.1 ≤ m + 1 ∧
    (∀ (k : Nat) (a : α), k ≤ m →
      (∀ i, i < k → (op i).isOk = false) → op k = Except.ok a →
      (retry_with_backoff op m d b).1 = Except.ok a ∧
      (retry_with_backoff op m d b).2.1 = k + 1) ∧
    (retry_with_backoff op m d b).2.2 =
      geomSleeps d b (retry_with_backoff op m d b).2.2.length ∧
    (∀ e : PyErr, (∀ i, i ≤ m → (op i).isOk = false) → op m = Except.error e →
      (retry_with_backoff op m d b).1 = Except.error e ∧
      (retry_with_backoff op m d b).2.1 = m + 1) := by
  refine ⟨?_, ?_, ?_, ?_⟩
  · have := retryGo_calls_le op b m 0 d
    simpa [retry_with_backoff] using this
  · intro k a hk hfail hok
    have := retryGo_first_success op b k m 0 d a hk
      (fun i hi => by simpa using hfail i hi) (by simpa using hok)
    exact ⟨this.1, by have := this.2.1; simpa [retry_with_backoff] using this⟩
  · exact retryGo_sleeps_geom op b m 0 d
  · intro e hfail hlast
    have := retryGo_exhaust op b m 0 d e
      (fun i hi => by simpa using hfail i hi) (by simpa using hlast)
    exact ⟨this.1, by have := this.2; simpa [retry_with_backoff] using this⟩

/-- A service that fails twice and then succeeds. -/
def opFlaky : Nat → Except PyErr Nat :=
  fun i => if i < 2 then Except.error (PyErr.apiError "503") else Except.ok 42

/-- C6 witness: with budget 3, the flaky service's result is returned after
exactly 3 invocations. -/
theorem retry_with_backoff_spec_witness :
    (retry_with_backoff opFlaky 3 1 2).1 = Except.ok 42 ∧
    (retry_with_backoff opFlaky 3 1 2).2.1 = 3 :=
  (retry_with_backoff_spec opFlaky 3 1 2).2.1 2 42 (by omega)
    (fun i hi => by interval_cases i <;> rfl) rfl

/-! ## Batching lemmas -/

/-- With a positive batch size and enough fuel, concatenating the batches
recovers the original list. -/
theorem chunksGo_flatten {α : Type} (k : Nat) (hk : 0 < k) :
    ∀ (fuel : Nat) (xs : List α), xs.length ≤ fuel →
      (chunksGo k fuel xs).flatten = xs := by
  intro fuel
  induction fuel with
  | zero =>
    intro xs hlen
    cases xs with
    | nil => simp [chunksGo]
    | cons x t => simp at hlen
  | succ f ih =>
    intro xs hlen
    cases xs with
    | nil => simp [chunksGo]
    | cons x t =>
      simp only [chunksGo, List.flatten_cons]
      rw [ih ((x :: t).drop k) (by simp at hlen ⊢; omega)]
      exact List.take_append_drop k (x :: t)

/-- Processing a concatenation of batches is processing them in turn. -/
theorem stepBatch_append (settings : Settings) (babyId : String)
    (acc : Stats × Nat × List ErrorEntry) (xs ys : List TaskItem) :
    stepBatch settings babyId acc (xs ++ ys) =
      stepBatch settings babyId (stepBatch settings babyId acc xs) ys := by
  simp [stepBatch, List.map_append, List.foldl_append, List.sum_append,
    List.flatten_append, List.append_assoc, Nat.add_assoc]

/-- Folding the batch step over a batch list is one batch step over its
concatenation. -/
theorem foldl_stepBatch_flatten (settings : Settings) (babyId : String) :
    ∀ (bs : List (List TaskItem)) (acc : Stats × Nat × List ErrorEntry),
      bs.foldl (stepBatch settings babyId) acc =
        stepBatch settings babyId acc bs.flatten := by
  intro bs
  induction bs with
  | nil => intro acc; simp [stepBatch]
  | cons hd tl ih =>
    intro acc
    simp only [List.foldl_cons, List.flatten_cons]
    rw [ih, ← stepBatch_append]

/-- Batch slicing does not affect the aggregate outcome: the sync is one
batch step over the full activity list. -/
theorem sync_eq_stepBatch (settings : Settings) (items : List TaskItem)
    (babyId : String) (hb : 0 < settings.batch_size) :
    sync_student_activities settings items babyId =
      stepBatch settings babyId
        ({ total := items.length, successful := 0, failed := 0, skipped := 0 }, 0, [])
        items := by
  unfold sync_student_activities chunks
  rw [foldl_stepBatch_flatten,
    chunksGo_flatten settings.batch_size hb items.length items le_rfl]

/-- In dry-run mode an activity whose transform yields a record is counted
successful with zero write calls and no logged error. -/
theorem transfer_activity_dry_run (settings : Settings) (submit : SubmitOracle)
    (a : BwActivity) (babyId : String) (r : NaraRecord)
    (hdry : settings.dry_run = true)
    (ht : transform_activity a = Except.ok (some r)) :
    transfer_activity settings submit a babyId = (true, 0, []) := by
  simp [transfer_activity, ht, hdry]

/-- A batch step over items that all transfer as `(true, 0, [])` adds the
item count to `successful` and nothing else. -/
theorem stepBatch_all_successful (settings : Settings) (babyId : String) :
    ∀ (items : List TaskItem) (acc : Stats × Nat × List ErrorEntry),
      (∀ it ∈ items, transfer_activity settings it.2 it.1 babyId = (true, 0, [])) →
      stepBatch settings babyId acc items =
        ({ acc.1 with successful := acc.1.successful + items.length },
          acc.2.1, acc.2.2) := by
  intro items
  induction items with
  | nil => intro acc _; simp [stepBatch]
  | cons it rest ih =>
    intro acc h
    have hit := h it (List.mem_cons_self it rest)
    have hsingle : stepBatch settings babyId acc [it] =
        ({ acc.1 with successful := acc.1.successful + 1 }, acc.2.1, acc.2.2) := by
      simp [stepBatch, hit, updateStats]
    rw [show it :: rest = [it] ++ rest from rfl, stepBatch_append, hsingle,
      ih _ (fun x hx => h x (List.mem_cons_of_mem it hx))]
    simp [List.length_cons, Nat.add_assoc, Nat.add_comm 1 rest.length]

/-! ## C5 -/

/-- C5: in dry-run mode, for any list of eligible activities (each of a
supported kind, transforming to a record), the sync issues zero write
calls, logs no errors, and counts every one of them successful. -/
theorem dry_run_no_writes (settings : Settings) (items : List TaskItem)
    (babyId : String) (hdry : settings.dry_run = true)
    (hb : 0 < settings.batch_size)
    (helig : ∀ it ∈ items, ∃ r, transform_activity it.1 = Except.ok (some r)) :
    sync_student_activities settings items babyId =
      ({ total := items.length, successful := items.length,
         failed := 0, skipped := 0 }, 0, []) := by
  rw [sync_eq_stepBatch settings items babyId hb,
    stepBatch_all_successful settings babyId items _
      (fun it hit => by
        obtain ⟨r, hr⟩ := helig it hit
        exact transfer_activity_dry_run settings it.2 it.1 babyId r hdry hr)]
  simp

/-- C5 witness: two eligible activities in dry-run mode against a failing
backend — zero writes, both counted successful. -/
theorem dry_run_no_writes_witness :
    sync_student_activities settingsDry
      [(diaperWellFormed, alwaysFail), (napMorning, alwaysFail)] "b1" =
      ({ total := 2, successful := 2, failed := 0, skipped := 0 }, 0, []) :=
  dry_run_no_writes settingsDry
    [(diaperWellFormed, alwaysFail), (napMorning, alwaysFail)] "b1" rfl
    (by decide)
    (by
      intro it hit
      rcases List.mem_cons.mp hit with rfl | hit2
      · exact ⟨_, rfl⟩
      · rcases List.mem_cons.mp hit2 with rfl | hit3
        · exact ⟨_, rfl⟩
        · exact absurd hit3 (List.not_mem_nil it))

/-! ## Run lemmas -/

/-- A fold whose step ignores its element is the identity. -/
theorem foldl_skip {β : Type} (f : β → Student → β)
    (hf : ∀ acc s, f acc s = acc) :
    ∀ (l : List Student) (init : β), l.foldl f init = init := by
  intro l
  induction l with
  | nil => intro init; rfl
  | cons s rest ih =>
    intro init
    rw [List.foldl_cons, hf, ih]

/-- With an empty mapping every student is skipped: the sync loop performs
no writes and accumulates nothing. -/
theorem syncLoop_empty_mapping (env : RunEnv) (na tf : Bool) :
    syncLoop env na tf [] =
      { naraAuthed := na, sourceRosterFetched := true, targetRosterFetched := tf,
        mapping := [], earlyReturn := false, stats := zeroStats, writes := 0,
        errors := [] } := by
  have h := foldl_skip (fun (acc : Stats × Nat × List ErrorEntry) (_ : Student) => acc)
    (fun _ _ => rfl) env.students (zeroStats, 0, [])
  exact congrArg (fun r : Stats × Nat × List ErrorEntry =>
    ({ naraAuthed := na, sourceRosterFetched := true, targetRosterFetched := tf,
       mapping := [], earlyReturn := false, stats := r.1, writes := r.2.1,
       errors := r.2.2 } : RunReport)) h

/-! ## C8 -/

/-- C8: with a target credential absent, the run proceeds in read-only
mode — the source roster is still fetched, the target roster fetch and
reconciliation are skipped, zero write attempts happen, and the run
completes without error. -/
theorem read_only_mode (env : RunEnv)
    (hcred : env.settings.nara_email = none ∨ env.settings.nara_password = none) :
    ∃ report, run env = RunOutcome.completed report ∧
      report.naraAuthed = false ∧
      report.sourceRosterFetched = true ∧
      report.targetRosterFetched = false ∧
      report.mapping = [] ∧
      report.writes = 0 := by
  have hna : (env.settings.nara_email.isSome && env.settings.nara_password.isSome)
      = false := by
    rcases hcred with h | h <;> simp [h]
  by_cases hs : env.students.isEmpty
  · have hrun : run env = RunOutcome.completed
        { naraAuthed := false, sourceRosterFetched := true,
          targetRosterFetched := false, mapping := [], earlyReturn := true,
          stats := zeroStats, writes := 0, errors := [] } := by
      simp [run, hna, hs]
    exact ⟨_, hrun, rfl, rfl, rfl, rfl, rfl⟩
  · have hrun : run env = RunOutcome.completed (syncLoop env false false []) := by
      simp [run, hna, hs]
    rw [syncLoop_empty_mapping] at hrun
    exact ⟨_, hrun, rfl, rfl, rfl, rfl, rfl⟩

/-- C8 witness: a concrete credential-less environment with one student and
pending activities behind a failing backend still completes with zero
writes. -/
theorem read_only_mode_witness :
    ∃ report, run envReadOnly = RunOutcome.completed report ∧
      report.naraAuthed = false ∧
      report.sourceRosterFetched = true ∧
      report.targetRosterFetched = false ∧
      report.mapping = [] ∧
      report.writes = 0 :=
  read_only_mode envReadOnly (Or.inl rfl)

/-! ## C2 -/

/-- C2 counterexample: target credentials are present and reconciliation
returns an empty mapping, yet the run does not end in `TransferError` — it
completes normally (the code logs an error and `return`s). -/
theorem zero_match_no_transfer_error :
    envZeroMatch.settings.nara_email.isSome = true ∧
    envZeroMatch.settings.nara_password.isSome = true ∧
    envZeroMatch.students ≠ [] ∧
    map_students_to_babies envZeroMatch.students envZeroMatch.babies =
      Except.ok [] ∧
    (run envZeroMatch).isTransferError = false :=
  ⟨rfl, rfl, by decide, rfl, rfl⟩

/-- C2 (amended): if target authentication was attempted and reconciliation
produced zero matches, the run terminates early — no target roster entry is
synced, zero writes occur, no sync statistics accumulate — but it completes
normally, without raising `TransferError`. -/
theorem zero_match_completes_normally (env : RunEnv)
    (he : env.settings.nara_email.isSome = true)
    (hp : env.settings.nara_password.isSome = true)
    (hmap : map_students_to_babies env.students env.babies = Except.ok [])
    (hne : env.students ≠ []) :
    run env = RunOutcome.completed
      { naraAuthed := true, sourceRosterFetched := true,
        targetRosterFetched := true, mapping := [], earlyReturn := true,
        stats := zeroStats, writes := 0, errors := [] } := by
  have hs : env.students.isEmpty = false := by
    cases h : env.students with
    | nil => exact absurd h hne
    | cons a l => rfl
  simp [run, he, hp, hs, hmap]

/-- C2 witness: the amended statement applied to the concrete zero-match
environment. -/
theorem zero_match_completes_normally_witness :
    run envZeroMatch = RunOutcome.completed
      { naraAuthed := true, sourceRosterFetched := true,
        targetRosterFetched := true, mapping := [], earlyReturn := true,
        stats := zeroStats, writes := 0, errors := [] } :=
  zero_match_completes_normally envZeroMatch rfl rfl rfl (by decide)

end BwToNara
